import Mathlib

/-!
Verification of the core aggregation, coloring and sampling logic of the
South-Africa water-quality map applications (`app.py`, `app_satelite.py`,
`app_wastewater.py`).

The embedding models tables as lists: a sample row is its (Latitude,
Longitude) pair (coordinates are kept abstract over a linearly ordered
type, since the code compares them only by exact equality and by the
ordering pandas uses when sorting group keys).  Library calls
(`DataFrame.groupby(...).size()`, `drop_duplicates`, `DataFrame.sample`)
are embedded by their documented semantics, noted at each definition.
-/

namespace WaterMap

/-! ### First-seen deduplication

`firstSeen` keeps the first occurrence of every element, in encounter
order: the semantics of pandas `Series.unique` (used for `MAIN_RIV` ids)
and, keyed, of `drop_duplicates(keep=first)`. -/

/-- First-seen deduplication with an explicit accumulator `seen` of the
elements already emitted. -/
def firstSeenAux {β : Type} [DecidableEq β] (seen : List β) : List β → List β
  | [] => []
  | x :: xs =>
    if x ∈ seen then firstSeenAux seen xs else x :: firstSeenAux (x :: seen) xs

/-- The distinct elements of `l` in first-seen order. -/
def firstSeen {β : Type} [DecidableEq β] (l : List β) : List β :=
  firstSeenAux [] l

theorem mem_firstSeenAux {β : Type} [DecidableEq β] (l : List β) :
    ∀ (seen : List β) (a : β), a ∈ firstSeenAux seen l ↔ a ∈ l ∧ a ∉ seen := by
  induction l with
  | nil => intro seen a; simp [firstSeenAux]
  | cons x xs ih =>
    intro seen a
    by_cases hx : x ∈ seen
    · simp only [firstSeenAux, if_pos hx, ih]
      constructor
      · rintro ⟨h1, h2⟩; exact ⟨List.mem_cons_of_mem _ h1, h2⟩
      · rintro ⟨h1, h2⟩
        rcases List.mem_cons.mp h1 with rfl | h1
        · exact absurd hx h2
        · exact ⟨h1, h2⟩
    · simp only [firstSeenAux, if_neg hx, List.mem_cons, ih]
      constructor
      · rintro (rfl | ⟨h1, h2⟩)
        · exact ⟨Or.inl rfl, hx⟩
        · exact ⟨Or.inr h1, fun hs => h2 (Or.inr hs)⟩
      · rintro ⟨rfl | h1, h2⟩
        · exact Or.inl rfl
        · by_cases hax : a = x
          · exact Or.inl hax
          · exact Or.inr ⟨h1, fun hc => hc.elim hax h2⟩

theorem mem_firstSeen {β : Type} [DecidableEq β] {l : List β} {a : β} :
    a ∈ firstSeen l ↔ a ∈ l := by
  simp [firstSeen, mem_firstSeenAux]

theorem nodup_firstSeenAux {β : Type} [DecidableEq β] (l : List β) :
    ∀ (seen : List β), (firstSeenAux seen l).Nodup := by
  induction l with
  | nil => intro seen; simp [firstSeenAux]
  | cons x xs ih =>
    intro seen
    by_cases hx : x ∈ seen
    · simpa [firstSeenAux, if_pos hx] using ih seen
    · simp only [firstSeenAux, if_neg hx, List.nodup_cons]
      refine ⟨fun hc => ?_, ih (x :: seen)⟩
      exact ((mem_firstSeenAux xs (x :: seen) x).mp hc).2 (List.mem_cons_self x seen)

theorem nodup_firstSeen {β : Type} [DecidableEq β] (l : List β) :
    (firstSeen l).Nodup :=
  nodup_firstSeenAux l []

theorem firstSeen_ne_nil {β : Type} [DecidableEq β] {l : List β} (h : l ≠ []) :
    firstSeen l ≠ [] := by
  cases l with
  | nil => exact absurd rfl h
  | cons x xs => simp [firstSeen, firstSeenAux]

theorem firstSeen_perm_dedup {β : Type} [DecidableEq β] (l : List β) :
    (firstSeen l).Perm l.dedup := by
  refine (List.perm_ext_iff_of_nodup (nodup_firstSeen l) (List.nodup_dedup l)).mpr ?_
  intro a
  rw [mem_firstSeen, List.mem_dedup]

/-! ### The pandas group key order

pandas `groupby(['Latitude','Longitude'])` with the default `sort=True`
orders the group keys ascending, lexicographically on the two columns. -/

/-- Lexicographic "less or equal" on (Latitude, Longitude) keys. -/
def keyLe {α : Type} [LinearOrder α] (a b : α × α) : Prop :=
  a.1 < b.1 ∨ (a.1 = b.1 ∧ a.2 ≤ b.2)

instance {α : Type} [LinearOrder α] : DecidableRel (keyLe (α := α)) := fun a b =>
  inferInstanceAs (Decidable (a.1 < b.1 ∨ (a.1 = b.1 ∧ a.2 ≤ b.2)))

instance {α : Type} [LinearOrder α] : IsTotal (α × α) keyLe where
  total a b := by
    rcases lt_trichotomy a.1 b.1 with h | h | h
    · exact Or.inl (Or.inl h)
    · rcases le_total a.2 b.2 with h2 | h2
      · exact Or.inl (Or.inr ⟨h, h2⟩)
      · exact Or.inr (Or.inr ⟨h.symm, h2⟩)
    · exact Or.inr (Or.inl h)

instance {α : Type} [LinearOrder α] : IsTrans (α × α) keyLe where
  trans a b c hab hbc := by
    rcases hab with h1 | ⟨h1, h1'⟩
    · rcases hbc with h2 | ⟨h2, _⟩
      · exact Or.inl (h1.trans h2)
      · exact Or.inl (h2 ▸ h1)
    · rcases hbc with h2 | ⟨h2, h2'⟩
      · exact Or.inl (h1 ▸ h2)
      · exact Or.inr ⟨h1.trans h2, h1'.trans h2'⟩

/-! ### Location aggregation (`groupby(...).size()`) -/

/-- The number of rows of `rows` equal to the key `k`: the size of the
group of `k` under exact-equality grouping. -/
def keyCount {β : Type} [DecidableEq β] (rows : List β) (k : β) : Nat :=
  rows.countP (fun r => decide (r = k))

theorem keyCount_pos {β : Type} [DecidableEq β] {rows : List β} {k : β}
    (h : k ∈ rows) : 1 ≤ keyCount rows k :=
  List.countP_pos_iff.mpr ⟨k, h, by simp⟩

/-- Shallow embedding of
`df.groupby(['Latitude', 'Longitude']).size().reset_index(name='Count')`
as used by `add_markers` (app.py line 93) and `add_markers_and_radius`
(app_wastewater.py lines 126-129): one `(key, group row-count)` entry per
distinct key, with the keys ordered ascending (pandas default
`sort=True`). -/
def groupbySize {α : Type} [LinearOrder α] (rows : List (α × α)) :
    List ((α × α) × Nat) :=
  (List.insertionSort keyLe (firstSeen rows)).map (fun k => (k, keyCount rows k))

/-- The aggregation as §4.1 of the spec words it: one entry per unique key
in FIRST-SEEN order ("stable grouping, not sorted").  Introduced only to
compare the spec's claimed ordering against the code's `groupbySize`. -/
def specFirstSeenAggregate {α : Type} [DecidableEq α] (rows : List (α × α)) :
    List ((α × α) × Nat) :=
  (firstSeen rows).map (fun k => (k, keyCount rows k))

/-- app.py lines 89-103: `add_markers` returns immediately when the frame is
empty, otherwise emits one circle marker per `groupbySize` group; a marker
is modelled by its (location, sample-count) pair. -/
def add_markers {α : Type} [LinearOrder α] (rows : List (α × α)) :
    List ((α × α) × Nat) :=
  if rows.isEmpty then [] else groupbySize rows

theorem groupbySize_keys {α : Type} [LinearOrder α] (rows : List (α × α)) :
    (groupbySize rows).map Prod.fst = List.insertionSort keyLe (firstSeen rows) := by
  simp [groupbySize, List.map_map, Function.comp_def]

theorem groupbySize_keys_perm_firstSeen {α : Type} [LinearOrder α]
    (rows : List (α × α)) :
    ((groupbySize rows).map Prod.fst).Perm (firstSeen rows) := by
  rw [groupbySize_keys]
  exact List.perm_insertionSort keyLe (firstSeen rows)

theorem groupbySize_keys_nodup {α : Type} [LinearOrder α] (rows : List (α × α)) :
    ((groupbySize rows).map Prod.fst).Nodup :=
  ((groupbySize_keys_perm_firstSeen rows).symm.nodup (nodup_firstSeen rows))

theorem groupbySize_mem_keys {α : Type} [LinearOrder α] (rows : List (α × α))
    (k : α × α) : k ∈ (groupbySize rows).map Prod.fst ↔ k ∈ rows := by
  rw [(groupbySize_keys_perm_firstSeen rows).mem_iff, mem_firstSeen]

theorem groupbySize_counts {α : Type} [LinearOrder α] (rows : List (α × α)) :
    ∀ e ∈ groupbySize rows, e.2 = keyCount rows e.1 := by
  intro e he
  rcases List.mem_map.mp he with ⟨k, _, rfl⟩
  rfl

theorem groupbySize_sorted {α : Type} [LinearOrder α] (rows : List (α × α)) :
    List.Sorted keyLe ((groupbySize rows).map Prod.fst) := by
  rw [groupbySize_keys]
  exact List.sorted_insertionSort keyLe (firstSeen rows)

theorem groupbySize_ne_nil {α : Type} [LinearOrder α] {rows : List (α × α)}
    (h : rows ≠ []) : groupbySize rows ≠ [] := by
  intro hc
  have hlen : (groupbySize rows).length = (firstSeen rows).length := by
    have := (groupbySize_keys_perm_firstSeen rows).length_eq
    simpa using this
  have : (firstSeen rows).length = 0 := by rw [← hlen, hc]; rfl
  exact firstSeen_ne_nil h (List.length_eq_zero.mp this)

/-! ### The night-lights loader (`app_satelite.py`, `load_unique_data`) -/

/-- A coordinate row tagged with the name of the dataset it came from. -/
structure SrcRow (α : Type) where
  lat : α
  lon : α
  src : String
deriving DecidableEq

/-- The (Latitude, Longitude) key of a tagged row. -/
def SrcRow.key {α : Type} (r : SrcRow α) : α × α := (r.lat, r.lon)

/-- A raw tabular file as the loader sees it: whether the Latitude and
Longitude columns are both present, and its coordinate rows. -/
structure RawTable (α : Type) where
  hasCoords : Bool
  rows : List (α × α)
deriving DecidableEq

/-- app_satelite.py lines 32-42: the rows one file contributes to the
combined frame.  An unreadable file (`except: continue`) contributes
nothing, as does a file without both coordinate columns (the `issubset`
check); otherwise the file contributes its coordinate rows tagged with its
source name. -/
def fileContrib {α : Type} (f : String × Option (RawTable α)) : List (SrcRow α) :=
  match f.2 with
  | none => []
  | some t =>
    if t.hasCoords then t.rows.map (fun p => ⟨p.1, p.2, f.1⟩) else []

/-- The concatenation of all file contributions in dataset order
(the loop `combined_df = pd.concat([combined_df, temp])`). -/
def datasetContrib {α : Type} (files : List (String × Option (RawTable α))) :
    List (SrcRow α) :=
  files.foldr (fun f acc => fileContrib f ++ acc) []

/-- Whether any file contributed columns to the combined frame; when none
did, the combined frame is still the initial `pd.DataFrame()` with no
columns at all. -/
def anyContrib {α : Type} (files : List (String × Option (RawTable α))) : Bool :=
  files.any (fun f => match f.2 with | some t => t.hasCoords | none => false)

/-- `drop_duplicates(subset=['Latitude', 'Longitude'])` with the default
`keep='first'`: keep each row whose key has not been seen before it. -/
def dropDupFirst {α : Type} [DecidableEq α] (seen : List (α × α)) :
    List (SrcRow α) → List (SrcRow α)
  | [] => []
  | r :: rs =>
    if r.key ∈ seen then dropDupFirst seen rs
    else r :: dropDupFirst (r.key :: seen) rs

/-- app_satelite.py lines 24-48 (`load_unique_data`): concatenate the
readable coordinate-bearing files in dataset order, then drop duplicate
(Latitude, Longitude) keys keeping the first occurrence.  When no file
contributed, the combined frame has no columns and
`drop_duplicates(subset=['Latitude', 'Longitude'])` raises a KeyError,
modelled by the error branch. -/
def load_unique_data {α : Type} [DecidableEq α]
    (files : List (String × Option (RawTable α))) :
    Except String (List (SrcRow α)) :=
  if anyContrib files then .ok (dropDupFirst [] (datasetContrib files))
  else .error "KeyError: Latitude, Longitude"

theorem dropDupFirst_key_not_seen {α : Type} [DecidableEq α] :
    ∀ (l : List (SrcRow α)) (seen : List (α × α)) (r : SrcRow α),
      r ∈ dropDupFirst seen l → r.key ∉ seen := by
  intro l
  induction l with
  | nil => intro seen r hr; simp [dropDupFirst] at hr
  | cons x xs ih =>
    intro seen r hr
    by_cases hx : x.key ∈ seen
    · exact ih seen r (by simpa [dropDupFirst, if_pos hx] using hr)
    · rw [dropDupFirst, if_neg hx] at hr
      rcases List.mem_cons.mp hr with rfl | hr'
      · exact hx
      · intro hc
        exact ih (x.key :: seen) r hr' (List.mem_cons_of_mem _ hc)

theorem dropDupFirst_keys_nodup {α : Type} [DecidableEq α] :
    ∀ (l : List (SrcRow α)) (seen : List (α × α)),
      ((dropDupFirst seen l).map SrcRow.key).Nodup := by
  intro l
  induction l with
  | nil => intro seen; simp [dropDupFirst]
  | cons x xs ih =>
    intro seen
    by_cases hx : x.key ∈ seen
    · simpa [dropDupFirst, if_pos hx] using ih seen
    · rw [dropDupFirst, if_neg hx]
      simp only [List.map_cons, List.nodup_cons]
      refine ⟨fun hc => ?_, ih (x.key :: seen)⟩
      rcases List.mem_map.mp hc with ⟨r, hr, hkey⟩
      exact dropDupFirst_key_not_seen xs (x.key :: seen) r hr
        (hkey ▸ List.mem_cons_self x.key seen)

theorem dropDupFirst_find? {α : Type} [DecidableEq α] :
    ∀ (l : List (SrcRow α)) (seen : List (α × α)) (r : SrcRow α),
      r ∈ dropDupFirst seen l →
      l.find? (fun x => decide (x.key = r.key)) = some r := by
  intro l
  induction l with
  | nil => intro seen r hr; simp [dropDupFirst] at hr
  | cons x xs ih =>
    intro seen r hr
    by_cases hx : x.key ∈ seen
    · rw [dropDupFirst, if_pos hx] at hr
      have hne : x.key ≠ r.key := by
        intro he
        exact dropDupFirst_key_not_seen xs seen r hr (he ▸ hx)
      rw [List.find?_cons_of_neg _ (by simpa using hne)]
      exact ih seen r hr
    · rw [dropDupFirst, if_neg hx] at hr
      rcases List.mem_cons.mp hr with rfl | hr'
      · exact List.find?_cons_of_pos _ (by simp)
      · have hne : x.key ≠ r.key := by
          intro he
          exact dropDupFirst_key_not_seen xs (x.key :: seen) r hr'
            (he ▸ List.mem_cons_self x.key seen)
        rw [List.find?_cons_of_neg _ (by simpa using hne)]
        exact ih (x.key :: seen) r hr'

theorem dropDupFirst_mem_keys {α : Type} [DecidableEq α] :
    ∀ (l : List (SrcRow α)) (seen : List (α × α)) (k : α × α),
      k ∈ (dropDupFirst seen l).map SrcRow.key
        ↔ k ∈ l.map SrcRow.key ∧ k ∉ seen := by
  intro l
  induction l with
  | nil => intro seen k; simp [dropDupFirst]
  | cons x xs ih =>
    intro seen k
    by_cases hx : x.key ∈ seen
    · rw [dropDupFirst, if_pos hx]
      rw [ih seen k]
      simp only [List.map_cons, List.mem_cons]
      constructor
      · rintro ⟨h1, h2⟩; exact ⟨Or.inr h1, h2⟩
      · rintro ⟨h1 | h1, h2⟩
        · exact absurd (h1 ▸ hx) h2
        · exact ⟨h1, h2⟩
    · rw [dropDupFirst, if_neg hx]
      simp only [List.map_cons, List.mem_cons, ih (x.key :: seen) k]
      constructor
      · rintro (rfl | ⟨h1, h2⟩)
        · exact ⟨Or.inl rfl, hx⟩
        · exact ⟨Or.inr h1, fun hs => h2 (Or.inr hs)⟩
      · rintro ⟨rfl | h1, h2⟩
        · exact Or.inl rfl
        · by_cases hk : k = x.key
          · exact Or.inl hk
          · exact Or.inr ⟨h1, fun hc => hc.elim hk h2⟩

/-! ### The waste-water loader (`app_wastewater.py`, `load_data`) -/

/-- A tabular file as `load_data` sees it: its (already stripped) column
names and, per row, the Latitude and Longitude cells, either of which may
be null. -/
structure FileTable (α : Type) where
  cols : List String
  rows : List (Option α × Option α)
deriving DecidableEq

/-- app_wastewater.py lines 15-39 (`load_data`): a missing file yields an
empty frame; a readable table keeps only the rows with both coordinates
non-null (`dropna`) when the columns include Latitude and Longitude, and
otherwise yields an empty frame — silently, with no error value in the
return type. -/
def load_data {α : Type} (file : Option (FileTable α)) : List (α × α) :=
  match file with
  | none => []
  | some t =>
    if "Latitude" ∈ t.cols ∧ "Longitude" ∈ t.cols then
      t.rows.filterMap (fun p =>
        match p.1, p.2 with
        | some la, some lo => some (la, lo)
        | _, _ => none)
    else []

/-! ### Claim C1 -/

/-- C1 (amended): for every input table with coordinates present, the
aggregation `groupbySize` produces exactly one entry per unique
(latitude, longitude) key — the key list has no duplicates and covers
exactly the keys occurring in the input — with count equal to the number
of rows sharing that key; the output sequence is ordered by ascending
key (pandas `groupby` sorts group keys), not by first encounter. -/
theorem aggregation_unique_counts_sorted {α : Type} [LinearOrder α]
    (rows : List (α × α)) :
    ((groupbySize rows).map Prod.fst).Nodup
    ∧ (∀ k : α × α, k ∈ (groupbySize rows).map Prod.fst ↔ k ∈ rows)
    ∧ (∀ e ∈ groupbySize rows, e.2 = keyCount rows e.1)
    ∧ List.Sorted keyLe ((groupbySize rows).map Prod.fst) :=
  ⟨groupbySize_keys_nodup rows, groupbySize_mem_keys rows,
   groupbySize_counts rows, groupbySize_sorted rows⟩

/-- C1 witness: on the spec's own example [(1,2),(1,2),(3,4)] the claim
theorem applies; the counts are [2,1] over keys [(1,2),(3,4)]. -/
theorem aggregation_unique_counts_sorted_witness :
    ((groupbySize [((1:Int),(2:Int)), (1,2), (3,4)]).map Prod.fst).Nodup
    ∧ ((((1:Int),(2:Int)) ∈
          (groupbySize [((1:Int),(2:Int)), (1,2), (3,4)]).map Prod.fst)
        ↔ (((1:Int),(2:Int)) ∈ [((1:Int),(2:Int)), (1,2), (3,4)]))
    ∧ ((((1:Int),(2:Int)), 2).2
        = keyCount [((1:Int),(2:Int)), (1,2), (3,4)] (((1:Int),(2:Int)), 2).1)
    ∧ List.Sorted keyLe
        ((groupbySize [((1:Int),(2:Int)), (1,2), (3,4)]).map Prod.fst) := by
  obtain ⟨h1, h2, h3, h4⟩ :=
    aggregation_unique_counts_sorted [((1:Int),(2:Int)), (1,2), (3,4)]
  exact ⟨h1, h2 ((1:Int),(2:Int)), h3 (((1:Int),(2:Int)), 2) (by decide), h4⟩

/-- C1 counterexample: on rows [(3,4),(1,2),(3,4)] the code returns the
groups in ascending key order [(1,2),(3,4)], not in the first-seen order
[(3,4),(1,2)] the claim states. -/
theorem aggregation_order_counterexample :
    groupbySize [((3:Int),(4:Int)), (1,2), (3,4)]
      = [(((1:Int),(2:Int)), 1), ((3,4), 2)]
    ∧ specFirstSeenAggregate [((3:Int),(4:Int)), (1,2), (3,4)]
      = [(((3:Int),(4:Int)), 2), ((1,2), 1)]
    ∧ groupbySize [((3:Int),(4:Int)), (1,2), (3,4)]
      ≠ specFirstSeenAggregate [((3:Int),(4:Int)), (1,2), (3,4)] := by
  refine ⟨by decide, by decide, by decide⟩

/-! ### Claim C10 -/

/-- C10: aggregation conserves rows: every produced location has count ≥ 1,
and the counts over all produced locations sum to the number of input
rows. -/
theorem aggregation_conserves_rows {α : Type} [LinearOrder α]
    (rows : List (α × α)) :
    (∀ e ∈ groupbySize rows, 1 ≤ e.2)
    ∧ ((groupbySize rows).map Prod.snd).sum = rows.length := by
  constructor
  · intro e he
    rcases List.mem_map.mp he with ⟨k, hk, rfl⟩
    have hk' : k ∈ rows :=
      mem_firstSeen.mp ((List.perm_insertionSort keyLe _).mem_iff.mp hk)
    exact keyCount_pos hk'
  · have hmap : (groupbySize rows).map Prod.snd
        = (List.insertionSort keyLe (firstSeen rows)).map (fun k => keyCount rows k) := by
      simp [groupbySize, List.map_map, Function.comp_def]
    have hperm : (List.insertionSort keyLe (firstSeen rows)).Perm rows.dedup :=
      (List.perm_insertionSort keyLe (firstSeen rows)).trans (firstSeen_perm_dedup rows)
    have hsum := (hperm.map (fun k => keyCount rows k)).sum_eq
    rw [hmap, hsum]
    exact List.sum_map_count_dedup_eq_length rows

/-- C10 witness: the conservation theorem applied to the concrete table
[(1,2),(1,2),(3,4)]: the counts sum to 3 and the group (1,2) has
count ≥ 1. -/
theorem aggregation_conserves_rows_witness :
    1 ≤ ((((1:Int),(2:Int)), 2) : (Int × Int) × Nat).2
    ∧ ((groupbySize [((1:Int),(2:Int)), (1,2), (3,4)]).map Prod.snd).sum
        = [((1:Int),(2:Int)), (1,2), (3,4)].length := by
  obtain ⟨h1, h2⟩ := aggregation_conserves_rows [((1:Int),(2:Int)), (1,2), (3,4)]
  exact ⟨h1 (((1:Int),(2:Int)), 2) (by decide), h2⟩

/-! ### Claim C2 -/

/-- The two-dataset input of `load_unique_data`: both files readable, both
carrying the coordinate columns (app_satelite.py lines 26-29). -/
def twoFiles {α : Type} (sX sY : String) (X Y : List (α × α)) :
    List (String × Option (RawTable α)) :=
  [(sX, some ⟨true, X⟩), (sY, some ⟨true, Y⟩)]

/-- C2 (amended): deduplication is global across the concatenated,
dataset-ordered input: each (latitude, longitude) key yields exactly one
output record (keys are nodup, and cover exactly the keys of the
concatenated input), and each output record IS the first row of the
concatenated input carrying its key — so its source tag comes from the
dataset that contributed the first occurrence.  No count is computed: the
output records carry only coordinates and a source. -/
theorem multi_dataset_global_dedup {α : Type} [DecidableEq α]
    (sX sY : String) (X Y : List (α × α)) :
    load_unique_data (twoFiles sX sY X Y)
      = .ok (dropDupFirst [] (datasetContrib (twoFiles sX sY X Y)))
    ∧ ((dropDupFirst [] (datasetContrib (twoFiles sX sY X Y))).map SrcRow.key).Nodup
    ∧ (∀ r ∈ dropDupFirst [] (datasetContrib (twoFiles sX sY X Y)),
        (datasetContrib (twoFiles sX sY X Y)).find?
          (fun x => decide (x.key = r.key)) = some r)
    ∧ (∀ k : α × α,
        k ∈ (dropDupFirst [] (datasetContrib (twoFiles sX sY X Y))).map SrcRow.key
          ↔ k ∈ (datasetContrib (twoFiles sX sY X Y)).map SrcRow.key) := by
  refine ⟨rfl, dropDupFirst_keys_nodup _ [],
    fun r hr => dropDupFirst_find? _ [] r hr, fun k => ?_⟩
  simpa using dropDupFirst_mem_keys (datasetContrib (twoFiles sX sY X Y)) [] k

/-- C2 witness: the claim theorem applied to train [(1,1)] and val [(1,1)]:
the single surviving record is the train row, found first in the
concatenation. -/
theorem multi_dataset_global_dedup_witness :
    load_unique_data (twoFiles "Training Set" "Validation Set"
        [((1:Int),(1:Int))] [(1,1)])
      = .ok (dropDupFirst [] (datasetContrib (twoFiles "Training Set"
          "Validation Set" [((1:Int),(1:Int))] [(1,1)])))
    ∧ ((dropDupFirst [] (datasetContrib (twoFiles "Training Set"
        "Validation Set" [((1:Int),(1:Int))] [(1,1)]))).map SrcRow.key).Nodup
    ∧ (datasetContrib (twoFiles "Training Set" "Validation Set"
        [((1:Int),(1:Int))] [(1,1)])).find?
          (fun x => decide (x.key = (⟨1, 1, "Training Set"⟩ : SrcRow Int).key))
        = some ⟨1, 1, "Training Set"⟩
    ∧ (((1:Int),(1:Int)) ∈ (dropDupFirst [] (datasetContrib (twoFiles
          "Training Set" "Validation Set" [((1:Int),(1:Int))]
          [(1,1)]))).map SrcRow.key
        ↔ ((1:Int),(1:Int)) ∈ (datasetContrib (twoFiles "Training Set"
          "Validation Set" [((1:Int),(1:Int))] [(1,1)])).map SrcRow.key) := by
  obtain ⟨h1, h2, h3, h4⟩ := multi_dataset_global_dedup "Training Set"
    "Validation Set" [((1:Int),(1:Int))] [(1,1)]
  exact ⟨h1, h2, h3 ⟨1, 1, "Training Set"⟩ (by decide), h4 (1, 1)⟩

/-- C2 counterexample: the aggregation computes no per-location count — its
output on train [(1,1)] + val [(1,1)] (2 contributing rows) is identical
to its output on train [(1,1)] alone (1 contributing row): one record
⟨1, 1, "Training Set"⟩ with no count field.  So no count of 2 is attached
to the collapsed location, contradicting the claim. -/
theorem multi_dataset_count_counterexample :
    load_unique_data (twoFiles "Training Set" "Validation Set"
        [((1:Int),(1:Int))] [(1,1)])
      = load_unique_data (twoFiles "Training Set" "Validation Set"
        [((1:Int),(1:Int))] [])
    ∧ (datasetContrib (twoFiles "Training Set" "Validation Set"
        [((1:Int),(1:Int))] [(1,1)])).length = 2
    ∧ (datasetContrib (twoFiles "Training Set" "Validation Set"
        [((1:Int),(1:Int))] [])).length = 1
    ∧ load_unique_data (twoFiles "Training Set" "Validation Set"
        [((1:Int),(1:Int))] [(1,1)])
      = .ok [⟨1, 1, "Training Set"⟩] :=
  ⟨rfl, rfl, rfl, rfl⟩

/-! ### Claim C6 -/

/-- C6 (amended): when the required coordinate columns are absent from the
input table, `load_data` silently yields an empty result; no MissingField
condition is surfaced to the caller (the return type has no error
channel). -/
theorem load_data_missing_columns_silent {α : Type} (t : FileTable α)
    (h : ¬("Latitude" ∈ t.cols ∧ "Longitude" ∈ t.cols)) :
    load_data (some t) = [] := by
  simp only [load_data, if_neg h]

/-- C6 witness: the amended theorem applied to a one-row table whose only
column is "pH". -/
theorem load_data_missing_columns_silent_witness :
    load_data (some (⟨["pH"], [(some (1:Int), some (2:Int))]⟩ : FileTable Int))
      = [] :=
  load_data_missing_columns_silent _ (by decide)

/-- C6 counterexample: a table with one data row but without the coordinate
columns loads to an empty result — the empty list, not any error — even
though the input was non-empty, contradicting "fails with a MissingField
condition ... rather than silently producing an empty result". -/
theorem load_data_missing_field_counterexample :
    load_data (some (⟨["pH"], [(some (3:Int), some (4:Int))]⟩ : FileTable Int))
      = []
    ∧ (⟨["pH"], [(some (3:Int), some (4:Int))]⟩ : FileTable Int).rows.length
      = 1 := by
  refine ⟨by decide, rfl⟩

/-! ### Claim C9 -/

theorem datasetContrib_nil_of_empty {α : Type}
    (files : List (String × Option (RawTable α)))
    (hempty : ∀ s t, (s, some t) ∈ files → t.rows = []) :
    datasetContrib files = [] := by
  induction files with
  | nil => rfl
  | cons f fs ih =>
    have h1 : fileContrib f = [] := by
      rcases f with ⟨s, fo⟩
      cases fo with
      | none => rfl
      | some t =>
        have ht : t.rows = [] := hempty s t (List.mem_cons_self _ _)
        simp [fileContrib, ht]
    have h2 : datasetContrib fs = [] :=
      ih (fun s t hm => hempty s t (List.mem_cons_of_mem _ hm))
    show fileContrib f ++ datasetContrib fs = []
    rw [h1, h2]
    rfl

/-- C9 (amended): a dataset with zero rows is a valid input: as long as at
least one dataset contributed its coordinate columns, the combined
aggregation succeeds with an empty output, and `add_markers` maps an empty
table to an empty marker list.  (When every dataset is absent, however,
the combined frame has no key columns and deduplication fails with a
KeyError — see the counterexample.) -/
theorem empty_datasets_yield_empty {α : Type} [LinearOrder α]
    (files : List (String × Option (RawTable α)))
    (hcontrib : anyContrib files = true)
    (hempty : ∀ s t, (s, some t) ∈ files → t.rows = []) :
    load_unique_data files = .ok []
    ∧ add_markers ([] : List (α × α)) = [] := by
  constructor
  · rw [load_unique_data, if_pos hcontrib,
      datasetContrib_nil_of_empty files hempty]
    rfl
  · rfl

/-- C9 witness: one readable coordinate-bearing file with zero rows loads
to an empty unique-location list, and `add_markers` of an empty table is
empty. -/
theorem empty_datasets_yield_empty_witness :
    load_unique_data [("Training Set", some (⟨true, []⟩ : RawTable Int))]
      = .ok []
    ∧ add_markers ([] : List (Int × Int)) = [] := by
  refine empty_datasets_yield_empty _ rfl ?_
  rintro s t hm
  rw [List.mem_singleton] at hm
  injection hm with h1 h2
  injection h2 with h3
  rw [h3]

/-- C9 counterexample: when every input dataset is absent, the combined
frame never acquires the coordinate columns and
`drop_duplicates(subset=['Latitude', 'Longitude'])` raises a KeyError —
the loader does not produce an empty output. -/
theorem all_datasets_absent_counterexample :
    load_unique_data ([("Training Set", none), ("Validation Set", none)]
        : List (String × Option (RawTable Int)))
      = .error "KeyError: Latitude, Longitude" := rfl

/-! ### River colors (`app.py` lines 60-86, `app_wastewater.py` lines 95-116) -/

/-- The 20 colors of matplotlib's `tab20` listed colormap, in order, as the
hex strings `mcolors.to_hex` renders them. -/
def tab20 : List String :=
  ["#1f77b4", "#aec7e8", "#ff7f0e", "#ffbb78", "#2ca02c",
   "#98df8a", "#d62728", "#ff9896", "#9467bd", "#c5b0d5",
   "#8c564b", "#c49c94", "#e377c2", "#f7b6d2", "#7f7f7f",
   "#c7c7c7", "#bcbd22", "#dbdb8d", "#17becf", "#9edae5"]

/-- app.py lines 60-71 / app_wastewater.py lines 97-102: the distinct
MAIN_RIV ids in first-seen order (`Series.unique`), each mapped via
`enumerate` to the tab20 color at index `i % 20` (the entry
`river_color_map[riv_id] = mcolors.to_hex(colormap(i % 20))`).  The
Python dict keyed by unique ids is modelled as an association list with
nodup keys. -/
def river_color_map {β : Type} [DecidableEq β] (ids : List β) :
    List (β × String) :=
  (firstSeen ids).enum.map (fun p => (p.2, tab20.getD (p.1 % 20) "#000000"))

/-- Python `dict.get(key, default)` on an association list. -/
def dictGet {β : Type} [DecidableEq β] (m : List (β × String)) (k : β)
    (dflt : String) : String :=
  match m.find? (fun e => decide (e.1 = k)) with
  | some e => e.2
  | none => dflt

/-- app.py lines 74-86 (`style_function`): the rendered color of a feature is
`river_color_map.get(x['properties']['MAIN_RIV'], '#87CEFA')`. -/
def style_function_color {β : Type} [DecidableEq β] (m : List (β × String))
    (riv : β) : String :=
  dictGet m riv "#87CEFA"

/-- app_wastewater.py lines 104-116 (`style_function`): same lookup with the
fallback color '#00FFFF'. -/
def style_function_color_ww {β : Type} [DecidableEq β] (m : List (β × String))
    (riv : β) : String :=
  dictGet m riv "#00FFFF"

theorem river_color_map_keys {β : Type} [DecidableEq β] (ids : List β) :
    (river_color_map ids).map Prod.fst = firstSeen ids := by
  simp [river_color_map, List.map_map, Function.comp_def, List.enum_map_snd]

theorem river_color_map_length {β : Type} [DecidableEq β] (ids : List β) :
    (river_color_map ids).length = (firstSeen ids).length := by
  simp [river_color_map]

theorem river_color_map_entry {β : Type} [DecidableEq β] (ids : List β)
    (i : Nat) (hi : i < (firstSeen ids).length) :
    (river_color_map ids).get ⟨i, by rw [river_color_map_length]; exact hi⟩
      = ((firstSeen ids).get ⟨i, hi⟩, tab20.getD (i % 20) "#000000") := by
  simp [river_color_map, List.get_eq_getElem]

theorem find?_eq_of_nodup_keys {β γ : Type} [DecidableEq β] :
    ∀ (m : List (β × γ)), (m.map Prod.fst).Nodup →
      ∀ e ∈ m, m.find? (fun x => decide (x.1 = e.1)) = some e := by
  intro m
  induction m with
  | nil => intro _ e he; simp at he
  | cons a as ih =>
    intro hn e he
    simp only [List.map_cons, List.nodup_cons] at hn
    rcases List.mem_cons.mp he with rfl | he'
    · exact List.find?_cons_of_pos _ (by simp)
    · have hne : a.1 ≠ e.1 := by
        intro hc
        exact hn.1 (hc ▸ List.mem_map.mpr ⟨e, he', rfl⟩)
      rw [List.find?_cons_of_neg _ (by simpa using hne)]
      exact ih hn.2 e he'

theorem river_color_map_find?_eq_none {β : Type} [DecidableEq β]
    {ids : List β} {x : β} (hx : x ∉ ids) :
    (river_color_map ids).find? (fun e => decide (e.1 = x)) = none := by
  refine List.find?_eq_none.mpr (fun e he => ?_)
  simp only [decide_eq_true_eq]
  intro hc
  apply hx
  have : e.1 ∈ (river_color_map ids).map Prod.fst := List.mem_map.mpr ⟨e, he, rfl⟩
  rw [river_color_map_keys] at this
  exact mem_firstSeen.mp (hc ▸ this)

/-! ### Claim C3 -/

/-- C3: the color assignment is a pure deterministic function of the
first-seen distinct order of the river identifiers: the map is keyed by
exactly the distinct ids in first-seen order, the i-th distinct id
(0-indexed) looks up to the fixed 20-color palette at index i mod 20, and
any two ids whose first-seen positions agree modulo 20 (in particular,
positions differing by a multiple of 20) receive the same color. -/
theorem color_assignment_first_seen_mod20 {β : Type} [DecidableEq β]
    (ids : List β) (i j : Nat) (d : String)
    (hi : i < (firstSeen ids).length) (hj : j < (firstSeen ids).length)
    (hmod : i % 20 = j % 20) :
    (river_color_map ids).map Prod.fst = firstSeen ids
    ∧ dictGet (river_color_map ids) ((firstSeen ids).get ⟨i, hi⟩) d
        = tab20.getD (i % 20) "#000000"
    ∧ dictGet (river_color_map ids) ((firstSeen ids).get ⟨i, hi⟩) d
        = dictGet (river_color_map ids) ((firstSeen ids).get ⟨j, hj⟩) d := by
  have hkeys := river_color_map_keys ids
  have hnodup : ((river_color_map ids).map Prod.fst).Nodup := by
    rw [hkeys]; exact nodup_firstSeen ids
  have hlook : ∀ (n : Nat) (hn : n < (firstSeen ids).length),
      dictGet (river_color_map ids) ((firstSeen ids).get ⟨n, hn⟩) d
        = tab20.getD (n % 20) "#000000" := by
    intro n hn
    have hmem : ((firstSeen ids).get ⟨n, hn⟩, tab20.getD (n % 20) "#000000")
        ∈ river_color_map ids := by
      rw [← river_color_map_entry ids n hn]
      exact List.get_mem (river_color_map ids) n
        (by rw [river_color_map_length]; exact hn)
    have := find?_eq_of_nodup_keys (river_color_map ids) hnodup _ hmem
    rw [dictGet, this]
  refine ⟨hkeys, hlook i hi, ?_⟩
  rw [hlook i hi, hlook j hj, hmod]

/-- C3 witness: with 21 distinct identifiers 0,...,20, identifier 0 and
identifier 20 (first-seen positions 0 and 20, differing by the palette
size) both receive palette color 0. -/
theorem color_assignment_first_seen_mod20_witness :
    (river_color_map (List.range 21)).map Prod.fst = firstSeen (List.range 21)
    ∧ dictGet (river_color_map (List.range 21))
        ((firstSeen (List.range 21)).get ⟨0, by decide⟩) "#ffffff"
        = tab20.getD (0 % 20) "#000000"
    ∧ dictGet (river_color_map (List.range 21))
        ((firstSeen (List.range 21)).get ⟨0, by decide⟩) "#ffffff"
        = dictGet (river_color_map (List.range 21))
        ((firstSeen (List.range 21)).get ⟨20, by decide⟩) "#ffffff" := by
  obtain ⟨h1, h2, h3⟩ := color_assignment_first_seen_mod20 (List.range 21)
    0 20 "#ffffff" (by decide) (by decide) (by decide)
  exact ⟨h1, h2, h3⟩

/-! ### Claim C7 -/

/-- C7: at lookup time, an identifier not among the input ids (hence not in
the assignment) maps to the single fixed default color of the respective
style function ('#87CEFA' in app.py, '#00FFFF' in app_wastewater.py), and
each default is distinct from all 20 palette colors. -/
theorem style_default_color {β : Type} [DecidableEq β] (ids : List β)
    (x : β) (hx : x ∉ ids) :
    style_function_color (river_color_map ids) x = "#87CEFA"
    ∧ style_function_color_ww (river_color_map ids) x = "#00FFFF"
    ∧ "#87CEFA" ∉ tab20
    ∧ "#00FFFF" ∉ tab20 := by
  have hnone := river_color_map_find?_eq_none hx
  refine ⟨?_, ?_, by decide, by decide⟩
  · rw [style_function_color, dictGet, hnone]
  · rw [style_function_color_ww, dictGet, hnone]

/-- C7 witness: the id "Z" is absent from the assignment built over
["A", "B"]; both style functions fall back to their fixed defaults. -/
theorem style_default_color_witness :
    style_function_color (river_color_map ["A", "B"]) "Z" = "#87CEFA"
    ∧ style_function_color_ww (river_color_map ["A", "B"]) "Z" = "#00FFFF"
    ∧ "#87CEFA" ∉ tab20
    ∧ "#00FFFF" ∉ tab20 :=
  style_default_color ["A", "B"] "Z" (by decide)

/-! ### Bounded display sampling (`app_satelite.py` lines 95-100)

`df.sample(n=k, random_state=42)` draws `k` rows without replacement,
deterministically in the seed: numpy derives a seed-determined ordering of
the row positions and keeps the first `k`.  The embedding models the
seed-determined stream with a linear congruential hash; the claims under
verification depend only on the draw being a pure function of (seed,
input) selecting `k` distinct positions, not on which positions the
MT19937 stream happens to pick. -/

/-- One linear congruential step (the stand-in pseudorandom stream). -/
def lcgStep (s : Nat) : Nat := (1103515245 * s + 12345) % 2147483648

/-- Pseudorandom sort key of row position `i` under `seed`. -/
def sampleHash (seed i : Nat) : Nat := lcgStep (seed + i)

/-- The seed-determined ordering of row positions; ties broken by position,
making the relation total. -/
def sampleRank (seed : Nat) (i j : Nat) : Prop :=
  sampleHash seed i < sampleHash seed j
  ∨ (sampleHash seed i = sampleHash seed j ∧ i ≤ j)

instance (seed : Nat) : DecidableRel (sampleRank seed) := fun i j =>
  inferInstanceAs (Decidable (sampleHash seed i < sampleHash seed j
    ∨ (sampleHash seed i = sampleHash seed j ∧ i ≤ j)))

instance (seed : Nat) : IsTotal Nat (sampleRank seed) where
  total i j := by
    rcases lt_trichotomy (sampleHash seed i) (sampleHash seed j) with h | h | h
    · exact Or.inl (Or.inl h)
    · rcases Nat.le_total i j with h2 | h2
      · exact Or.inl (Or.inr ⟨h, h2⟩)
      · exact Or.inr (Or.inr ⟨h.symm, h2⟩)
    · exact Or.inr (Or.inl h)

instance (seed : Nat) : IsTrans Nat (sampleRank seed) where
  trans i j l hij hjl := by
    rcases hij with h1 | ⟨h1, h1'⟩
    · rcases hjl with h2 | ⟨h2, _⟩
      · exact Or.inl (h1.trans h2)
      · exact Or.inl (h1.trans_eq h2)
    · rcases hjl with h2 | ⟨h2, h2'⟩
      · exact Or.inl (h1.trans_lt h2)
      · exact Or.inr ⟨h1.trans h2, h1'.trans h2'⟩

/-- The seed-determined permutation of the row positions `0, ..., n-1`. -/
def permIndices (seed n : Nat) : List Nat :=
  List.insertionSort (sampleRank seed) (List.range n)

/-- `df.sample(n=k, random_state=seed)`: the first `k` positions of the
seed-determined permutation, mapped back to rows. -/
def sampleRows {γ : Type} [Inhabited γ] (seed k : Nat) (df : List γ) :
    List γ :=
  ((permIndices seed df.length).take k).map (fun i => df.getD i default)

/-- app_satelite.py lines 96-100: `display_df` is `df` itself when
`len(df) ≤ max_points`, else `df.sample(n=max_points, random_state=42)`. -/
def display_df {γ : Type} [Inhabited γ] (df : List γ) (k : Nat) : List γ :=
  if df.length > k then sampleRows 42 k df else df

/-- The random state passed to `DataFrame.sample` on a given invocation of
the script: the code pins `random_state=42` on every run. -/
def seedOfRun (_invocation : Nat) : Nat := 42

/-- One invocation of the display-sampling step, indexed by which run of
the script it belongs to. -/
def display_df_run {γ : Type} [Inhabited γ] (invocation : Nat) (df : List γ)
    (k : Nat) : List γ :=
  if df.length > k then sampleRows (seedOfRun invocation) k df else df

theorem permIndices_perm_range (seed n : Nat) :
    (permIndices seed n).Perm (List.range n) :=
  List.perm_insertionSort (sampleRank seed) (List.range n)

theorem permIndices_length (seed n : Nat) : (permIndices seed n).length = n :=
  (permIndices_perm_range seed n).length_eq.trans (List.length_range n)

theorem permIndices_nodup (seed n : Nat) : (permIndices seed n).Nodup :=
  (permIndices_perm_range seed n).symm.nodup (List.nodup_range n)

theorem permIndices_mem {seed n i : Nat} (h : i ∈ permIndices seed n) :
    i < n :=
  List.mem_range.mp ((permIndices_perm_range seed n).mem_iff.mp h)

/-! ### Claim C4 -/

/-- C4: for an input of size M and cap k, the sampler returns exactly
min(M, k) elements; when M ≤ k it returns the input sequence itself; when
M > k it returns the rows at k distinct in-range positions — a k-element
subset drawn without replacement. -/
theorem bounded_sampler_min_count {γ : Type} [Inhabited γ]
    (df : List γ) (k : Nat) :
    (display_df df k).length = min df.length k
    ∧ (df.length ≤ k → display_df df k = df)
    ∧ (k < df.length →
        ((permIndices 42 df.length).take k).Nodup
        ∧ ((permIndices 42 df.length).take k).length = k
        ∧ (∀ i ∈ (permIndices 42 df.length).take k, i < df.length)
        ∧ display_df df k
            = ((permIndices 42 df.length).take k).map
                (fun i => df.getD i default)) := by
  refine ⟨?_, fun hle => ?_, fun hlt => ?_⟩
  · by_cases h : df.length > k
    · rw [display_df, if_pos h]
      rw [sampleRows, List.length_map, List.length_take, permIndices_length]
      omega
    · rw [display_df, if_neg h]
      omega
  · rw [display_df, if_neg (by omega)]
  · refine ⟨?_, ?_, ?_, ?_⟩
    · exact (List.take_sublist k _).nodup (permIndices_nodup 42 df.length)
    · rw [List.length_take, permIndices_length]; omega
    · intro i hi
      exact permIndices_mem (List.mem_of_mem_take hi)
    · rw [display_df, if_pos (by omega)]
      rfl

/-- C4 witness: the sampler theorem applied to [10,20,30] with cap 2
(oversize input: 2 distinct positions survive) and to [10,20] with cap 5
(returned unchanged). -/
theorem bounded_sampler_min_count_witness :
    (display_df [10, 20, 30] 2).length = min 3 2
    ∧ display_df [10, 20] 5 = [10, 20]
    ∧ ((permIndices 42 3).take 2).Nodup
    ∧ display_df [10, 20, 30] 2
        = ((permIndices 42 3).take 2).map
            (fun i => [10, 20, 30].getD i default) := by
  obtain ⟨h1, _, h3⟩ := bounded_sampler_min_count [10, 20, 30] 2
  obtain ⟨_, h2, _⟩ := bounded_sampler_min_count [10, 20] 5
  obtain ⟨h3a, _, _, h3d⟩ := h3 (by decide)
  exact ⟨h1, h2 (by decide), h3a, h3d⟩

/-! ### Claim C5 -/

/-- C5: sampling is deterministic across runs: the random state is the
fixed constant 42 on every invocation, so any two invocations with
identical input and cap produce identical output. -/
theorem bounded_sampler_reproducible {γ : Type} [Inhabited γ]
    (run1 run2 : Nat) (df : List γ) (k : Nat) :
    display_df_run run1 df k = display_df_run run2 df k
    ∧ display_df_run run1 df k = display_df df k :=
  ⟨rfl, rfl⟩

/-! ### Cross-layer isolation (`app.py` lines 58-107) -/

/-- The layered output of the app.py render pass. -/
structure AppLayers (α β : Type) where
  riverLayer : Option (List (β × String))
  trainMarkers : List ((α × α) × Nat)
  valMarkers : List ((α × α) × Nat)

/-- app.py lines 58-107: the river layer is drawn only when `show_rivers`
is on and `rivers_gdf is not None` (`load_river_data` returns None when
the geometry file fails to load); each station layer is computed
independently by `add_markers` when its checkbox is on. -/
def build_app_map {α β : Type} [LinearOrder α] [DecidableEq β]
    (riversGdf : Option (List β)) (showRivers showTrain showVal : Bool)
    (train val : List (α × α)) : AppLayers α β :=
  { riverLayer :=
      match riversGdf with
      | some g => if showRivers then some (river_color_map g) else none
      | none => none
    trainMarkers := if showTrain then add_markers train else []
    valMarkers := if showVal then add_markers val else [] }

theorem add_markers_ne_nil {α : Type} [LinearOrder α] {rows : List (α × α)}
    (h : rows ≠ []) : add_markers rows ≠ [] := by
  rw [add_markers, if_neg (by simpa using h)]
  exact groupbySize_ne_nil h

/-! ### The app.py script pass (lines 14-110) -/

/-- app.py lines 14-21 (`load_data`): a missing file yields the columnless
empty `pd.DataFrame()` (only FileNotFoundError is caught); a present file
is read and `dropna(subset=['Latitude', 'Longitude'])` keeps the rows
with both coordinates non-null — raising an uncaught KeyError when the
frame lacks those columns. -/
def load_data_app {α : Type} (file : Option (FileTable α)) :
    Except String (FileTable α) :=
  match file with
  | none => .ok ⟨[], []⟩
  | some t =>
    if "Latitude" ∈ t.cols ∧ "Longitude" ∈ t.cols then
      .ok ⟨t.cols, t.rows.filter (fun p => p.1.isSome && p.2.isSome)⟩
    else .error "KeyError: Latitude, Longitude"

/-- `df[['Latitude', 'Longitude']]` (app.py line 47): list-of-columns
selection raises a KeyError when the frame lacks the columns, as the
columnless empty frame returned for a missing file does. -/
def selectCoords {α : Type} (t : FileTable α) :
    Except String (List (Option α × Option α)) :=
  if "Latitude" ∈ t.cols ∧ "Longitude" ∈ t.cols then .ok t.rows
  else .error "KeyError: None of [Latitude, Longitude] are in the columns"

/-- The coordinate pairs of the rows with both cells non-null. -/
def coordPairs {α : Type} (t : FileTable α) : List (α × α) :=
  t.rows.filterMap (fun p =>
    match p.1, p.2 with
    | some la, some lo => some (la, lo)
    | _, _ => none)

/-- app.py lines 34-110 as one script pass: load the two station files,
evaluate line 47's coordinate-column selections for the map center, then
build the layers.  An uncaught raise at any step aborts the script: no
layer of the map is produced. -/
def app_script {α β : Type} [LinearOrder α] [DecidableEq β]
    (trainFile valFile : Option (FileTable α)) (riversGdf : Option (List β))
    (showRivers showTrain showVal : Bool) :
    Except String (AppLayers α β) :=
  (load_data_app trainFile).bind (fun dfTrain =>
  (load_data_app valFile).bind (fun dfVal =>
  (selectCoords dfTrain).bind (fun _center1 =>
  (selectCoords dfVal).bind (fun _center2 =>
  .ok (build_app_map riversGdf showRivers showTrain showVal
    (coordPairs dfTrain) (coordPairs dfVal))))))

theorem except_bind_ok {ε σ τ : Type} (a : σ) (f : σ → Except ε τ) :
    (Except.ok a : Except ε σ).bind f = f a := rfl

theorem coordPairs_dropna {α : Type} (t : FileTable α) :
    coordPairs ⟨t.cols, t.rows.filter (fun p => p.1.isSome && p.2.isSome)⟩
      = coordPairs t := by
  rcases t with ⟨cols, rows⟩
  simp only [coordPairs]
  induction rows with
  | nil => rfl
  | cons p ps ih =>
    rcases p with ⟨a, b⟩
    cases a <;> cases b <;>
      simp_all [List.filter_cons, List.filterMap_cons]

theorem load_data_app_ok {α : Type} (v : FileTable α)
    (hv : "Latitude" ∈ v.cols ∧ "Longitude" ∈ v.cols) :
    load_data_app (some v)
      = .ok ⟨v.cols, v.rows.filter (fun p => p.1.isSome && p.2.isSome)⟩ := by
  simp [load_data_app, hv.1, hv.2]

theorem selectCoords_ok {α : Type} (v : FileTable α)
    (hv : "Latitude" ∈ v.cols ∧ "Longitude" ∈ v.cols) :
    selectCoords (⟨v.cols, v.rows.filter (fun p => p.1.isSome && p.2.isSome)⟩
        : FileTable α)
      = .ok (v.rows.filter (fun p => p.1.isSome && p.2.isSome)) := by
  simp [selectCoords, hv.1, hv.2]

theorem app_script_ok {α β : Type} [LinearOrder α] [DecidableEq β]
    (t u : FileTable α) (r : Option (List β))
    (showRivers showTrain showVal : Bool)
    (ht : "Latitude" ∈ t.cols ∧ "Longitude" ∈ t.cols)
    (hu : "Latitude" ∈ u.cols ∧ "Longitude" ∈ u.cols) :
    app_script (some t) (some u) r showRivers showTrain showVal
      = .ok (build_app_map r showRivers showTrain showVal
          (coordPairs t) (coordPairs u)) := by
  simp only [app_script, load_data_app_ok t ht, load_data_app_ok u hu,
    except_bind_ok, selectCoords_ok t ht, selectCoords_ok u hu,
    coordPairs_dropna]

/-! ### Claim C8 -/

/-- C8 (amended): a RIVER-GEOMETRY load failure is isolated: when the
river file fails to load (`rivers_gdf = none`) but the station files are
valid, the script still succeeds, its train marker layer is exactly
`add_markers` of the train coordinates, is non-empty whenever the train
data has at least one valid row, and is identical to the layer produced
when the river geometry does load.  A load failure of a STATION dataset,
by contrast, is not isolated — see the counterexample. -/
theorem station_layers_survive_river_failure {α β : Type} [LinearOrder α]
    [DecidableEq β] (t u : FileTable α) (g : List β) (showVal : Bool)
    (ht : "Latitude" ∈ t.cols ∧ "Longitude" ∈ t.cols)
    (hu : "Latitude" ∈ u.cols ∧ "Longitude" ∈ u.cols)
    (hne : coordPairs t ≠ []) :
    ∃ layers : AppLayers α β,
      app_script (some t) (some u) none true true showVal = .ok layers
      ∧ layers.trainMarkers = add_markers (coordPairs t)
      ∧ layers.trainMarkers ≠ []
      ∧ ∃ layers2 : AppLayers α β,
          app_script (some t) (some u) (some g) true true showVal = .ok layers2
          ∧ layers2.trainMarkers = layers.trainMarkers := by
  refine ⟨build_app_map none true true showVal (coordPairs t) (coordPairs u),
    app_script_ok t u none true true showVal ht hu, rfl, ?_,
    build_app_map (some g) true true showVal (coordPairs t) (coordPairs u),
    app_script_ok t u (some g) true true showVal ht hu, rfl⟩
  show add_markers (coordPairs t) ≠ []
  exact add_markers_ne_nil hne

/-- C8 witness: with the river geometry failed (`none`), a one-row training
file and an empty-but-well-formed validation file, the script succeeds and
the train marker layer is computed, non-empty, and unchanged when the
river geometry loads as ["R1"]. -/
theorem station_layers_survive_river_failure_witness :
    ∃ layers : AppLayers Int String,
      app_script
          (some ⟨["Latitude", "Longitude"], [(some (1:Int), some (2:Int))]⟩)
          (some ⟨["Latitude", "Longitude"], []⟩) none true true false
        = .ok layers
      ∧ layers.trainMarkers
        = add_markers (coordPairs
            ⟨["Latitude", "Longitude"], [(some (1:Int), some (2:Int))]⟩)
      ∧ layers.trainMarkers ≠ []
      ∧ ∃ layers2 : AppLayers Int String,
          app_script
              (some ⟨["Latitude", "Longitude"], [(some (1:Int), some (2:Int))]⟩)
              (some ⟨["Latitude", "Longitude"], []⟩) (some ["R1"])
              true true false
            = .ok layers2
          ∧ layers2.trainMarkers = layers.trainMarkers :=
  station_layers_survive_river_failure
    ⟨["Latitude", "Longitude"], [(some (1:Int), some (2:Int))]⟩
    ⟨["Latitude", "Longitude"], []⟩ ["R1"] false
    (by decide) (by decide) (by decide)

/-- C8 counterexample: a load failure of a STATION dataset is not isolated:
with TRAINING_SET.csv missing, `load_data` returns the columnless empty
frame and line 47's `df_train[['Latitude', 'Longitude']]` raises an
uncaught KeyError, so the script aborts and no layer — river, training or
validation markers — is produced, even though the validation data and the
river geometry are valid. -/
theorem station_failure_not_isolated_counterexample :
    app_script (α := Int) none
      (some ⟨["Latitude", "Longitude"], [(some (5:Int), some (6:Int))]⟩)
      (some ["R1"]) true true true
      = .error "KeyError: None of [Latitude, Longitude] are in the columns" :=
  rfl

end WaterMap
